import Mathlib

/-!
Verification of `paper_data/validate_results.py`.

The Python pipeline is embedded shallowly:
  * Python computations that may raise are modelled by `PyResult`:
    `ret` a value, `exn` an exception message, or `hang` (a loop that
    never finishes within the modelling fuel, e.g. waiting forever on
    a permanently-down backend).
  * External services (RDKit parsers, the CACTUS/cirpy resolver, the
    PubChem lookup, the liveness probe) are an environment `ChemEnv`
    of oracles; each oracle call may return, raise, or hang.
  * An RDKit molecule is modelled by `Mol`: its list of atomic numbers
    and its canonical SMILES string.
  * CSV rows are `List String`; `writerow` is list append, so each
    output stream is the list of rows written to it, in order.
-/

/-- Outcome of a Python computation: a value, a raised exception
(carrying the message text), or nontermination within the fuel bound. -/
inductive PyResult (α : Type) where
  | ret : α → PyResult α
  | exn : String → PyResult α
  | hang : PyResult α
deriving DecidableEq, Repr

/-- Sequencing of Python statements: an exception or a hang propagates. -/
def PyResult.bind {α β : Type} : PyResult α → (α → PyResult β) → PyResult β
  | .ret a, f => f a
  | .exn e, _ => .exn e
  | .hang, _ => .hang

/-- Models a `try: ... except Exception:` block whose handler ends by
producing `d` (the handler itself only logs). -/
def pyCatch {α : Type} (x : PyResult α) (d : α) : PyResult α :=
  match x with
  | .exn _ => .ret d
  | r => r

/-- Python `row[i]` on a list: `IndexError` when out of range. -/
def pyGet (xs : List String) (i : Nat) : PyResult String :=
  match xs.get? i with
  | some v => .ret v
  | none => .exn "IndexError"

/-- Python truthiness of an optional string (`None` and `""` are falsy). -/
def truthyStr : Option String → Bool
  | none => false
  | some s => s ≠ ""

/-- An RDKit molecule: the atomic numbers of its atoms, and the
canonical SMILES `Chem.MolToSmiles` renders for it. -/
structure Mol where
  atoms : List Nat
  canonical : String
deriving DecidableEq, Repr

/-- Python `a or b` on two optional molecules (a molecule object is
always truthy, `None` is falsy). -/
def orMol : Option Mol → Option Mol → Option Mol
  | some m, _ => some m
  | none, b => b

/-- Outcome of one `requests.get` liveness probe: an HTTP response with
a status code, or a raised exception (network failure, timeout). -/
inductive ProbeOutcome where
  | resp : Nat → ProbeOutcome
  | exn : String → ProbeOutcome
deriving DecidableEq, Repr

/-- Python `resp.ok`: status code below 400. -/
def probeOk : ProbeOutcome → Bool
  | .resp code => code < 400
  | .exn _ => false

/-- The external services consumed by the pipeline.  `cirpy` and the
probe take the attempt index, so one environment describes a whole
sequence of call outcomes.  `pubchemGet` returns the parsed JSON shape
the code inspects: `none` when `PropertyTable`/`Properties` is absent,
otherwise the `Properties` list, each entry being the value of its
`CanonicalSMILES` key (`none` when the key is missing). -/
structure ChemEnv where
  molFromSmiles : String → PyResult (Option Mol)
  molFromInchi : String → PyResult (Option Mol)
  cirpy : String → Nat → PyResult (Option String)
  pubchemGet : String → PyResult (Option (List (Option String)))
  probe : Nat → ProbeOutcome

/-- Does the character list `hay` start with `needle`? -/
def listStartsWithChars : List Char → List Char → Bool
  | _, [] => true
  | [], _ :: _ => false
  | c :: hay, d :: needle => c == d && listStartsWithChars hay needle

/-- Does the character list `hay` contain `needle` as a contiguous run? -/
def listHasSubChars : List Char → List Char → Bool
  | hay, needle =>
    if listStartsWithChars hay needle then true
    else
      match hay with
      | [] => false
      | _ :: t => listHasSubChars t needle

/-- Python `needle in hay` on strings. -/
def strContainsSub (hay needle : String) : Bool :=
  listHasSubChars hay.toList needle.toList

/-- Python `str.lower()`. -/
def strToLower (s : String) : String :=
  String.mk (s.toList.map Char.toLower)

/-- Python `s.startswith(p)`. -/
def strStartsWith (s p : String) : Bool :=
  listStartsWithChars s.toList p.toList

/-- The error-text signature `resolve_with_cirpy` treats as CACTUS
being down: a 504, a timeout, or a failed connection. -/
def cactusDownSignature (e : String) : Bool :=
  strContainsSub e "504" || strContainsSub (strToLower e) "timeout" ||
    strContainsSub (strToLower e) "failed to establish a new connection"

/-- Embedding of `wait_for_cactus_service`: probe the liveness URL;
return as soon as a probe yields an OK response, otherwise sleep and
retry forever.  `probe k` is the outcome of the k-th probe request;
`some k` means the call returned after exactly `k` completed sleep
intervals (it returns immediately on the succeeding probe, without
sleeping); `none` means the loop was still running when the fuel ran
out.  The function has no exception outcome: every probe exception is
caught inside the loop. -/
def wait_for_cactus_service (probe : Nat → ProbeOutcome) : Nat → Nat → Option Nat
  | 0, _ => none
  | fuel + 1, k =>
    if probeOk (probe k) then some k
    else wait_for_cactus_service probe fuel (k + 1)

/-- Embedding of `resolve_with_cirpy`: call `cirpy.resolve` in a loop.
A raised error whose text matches the CACTUS-down signature makes the
code wait for the service (`wait_for_cactus_service`) and retry; any
other error is re-raised.  `env.cirpy identifier k` is the outcome of
the k-th `cirpy.resolve` attempt. -/
def resolve_with_cirpy (env : ChemEnv) (identifier : String) : Nat → Nat → PyResult (Option String)
  | 0, _ => .hang
  | fuel + 1, k =>
    match env.cirpy identifier k with
    | .ret s => .ret s
    | .hang => .hang
    | .exn e =>
      if cactusDownSignature e then
        match wait_for_cactus_service env.probe (fuel + 1) 0 with
        | some _ => resolve_with_cirpy env identifier fuel (k + 1)
        | none => .hang
      else .exn e

/-- Embedding of `fetch_smiles_from_pubchem`: query the PubChem PUG
REST API, take `CanonicalSMILES` from the first `Properties` record if
present and truthy; any exception is caught and yields `None`. -/
def fetch_smiles_from_pubchem (env : ChemEnv) (name : String) : PyResult (Option String) :=
  pyCatch
    (PyResult.bind (env.pubchemGet name) fun data =>
      match data with
      | some (p :: _) => if truthyStr p then .ret p else .ret none
      | _ => .ret none)
    none

/-- First stage of the IUPAC branch of `validate_identifier`: the
`try` block around `resolve_with_cirpy` + `Chem.MolFromSmiles`.
`some r` means the block executed a `return r`; `none` means control
fell through to the PubChem stage (including when the stage raised and
its `except` caught). -/
def iupacStage1 (env : ChemEnv) (fuel : Nat) (identifier : String) :
    PyResult (Option (Bool × Option Mol)) :=
  pyCatch
    (PyResult.bind (resolve_with_cirpy env identifier fuel 0) fun smiles =>
      match smiles with
      | some s =>
        if s ≠ "" then
          PyResult.bind (env.molFromSmiles s) fun mol =>
            match mol with
            | some m => .ret (some (true, some m))
            | none => .ret none
        else .ret none
      | none => .ret none)
    none

/-- Second stage of the IUPAC branch: the `try` block around
`fetch_smiles_from_pubchem` + `Chem.MolFromSmiles`, with the same
fell-through convention as `iupacStage1`. -/
def iupacStage2 (env : ChemEnv) (identifier : String) :
    PyResult (Option (Bool × Option Mol)) :=
  pyCatch
    (PyResult.bind (fetch_smiles_from_pubchem env identifier) fun ps =>
      match ps with
      | some s =>
        if s ≠ "" then
          PyResult.bind (env.molFromSmiles s) fun mol =>
            match mol with
            | some m => .ret (some (true, some m))
            | none => .ret none
        else .ret none
      | none => .ret none)
    none

/-- Body of the outermost `try` block of `validate_identifier`
(everything after the null/empty short-circuit). -/
def validateBody (env : ChemEnv) (fuel : Nat) (identifier ty : String) :
    PyResult (Bool × Option Mol) :=
  if ty = "smiles" then
    if strStartsWith identifier "[" then
      PyResult.bind (env.molFromSmiles identifier) fun mol => .ret (mol.isSome, mol)
    else .ret (false, none)
  else if ty = "inchi" then
    PyResult.bind (env.molFromInchi identifier) fun mol => .ret (mol.isSome, mol)
  else if ty = "iupac" then
    PyResult.bind (iupacStage1 env fuel identifier) fun r1 =>
      match r1 with
      | some r => .ret r
      | none =>
        PyResult.bind (iupacStage2 env identifier) fun r2 =>
          match r2 with
          | some r => .ret r
          | none => .ret (false, none)
  else .ret (false, none)

/-- Embedding of `validate_identifier`: short-circuit on the `null`
placeholder or the empty string, then run the format-specific body
inside the outermost `try`, whose handler converts any exception into
the `(False, None)` fall-through return. -/
def validate_identifier (env : ChemEnv) (fuel : Nat) (identifier ty : String) :
    PyResult (Bool × Option Mol) :=
  if identifier = "null" ∨ identifier = "" then .ret (false, none)
  else pyCatch (validateBody env fuel identifier ty) (false, none)

/-- Embedding of `molecule_has_carbon`: `False` for `None`, else true
iff some atom has atomic number 6. -/
def molecule_has_carbon : Option Mol → Bool
  | none => false
  | some m => m.atoms.any (fun a => a == 6)

/-- Embedding of `Chem.MolToSmiles` as called on the winning `mol`
object: renders the canonical SMILES; raises when handed `None`. -/
def MolToSmiles : Option Mol → PyResult String
  | some m => .ret m.canonical
  | none => .exn "MolToSmiles called on None"

/-- The `Yes`/`No` rendering of a resolution flag. -/
def yesNo (b : Bool) : String := if b then "Yes" else "No"

/-- One structural pass of the `while i < 7` scan: `rem` counts the
iterations left before `i` reaches 7. -/
def useful_info_scan (row : List String) : Nat → Nat → PyResult Bool
  | 0, _ => .ret false
  | rem + 1, i =>
    match row.get? i with
    | none => .exn "IndexError"
    | some v => if v ≠ "null" then .ret true else useful_info_scan row rem (i + 1)

/-- The `while i < 7` loop of `process_results` that scans columns
2..6 for useful information: the first cell differing from `null` sets
`useful_info = True` and breaks; walking past a short row raises
`IndexError`; reaching `i = 7` leaves `useful_info = False`. -/
def useful_info_loop (row : List String) (i : Nat) : PyResult Bool :=
  useful_info_scan row (7 - i) i

/-- The three `validate_identifier` calls of `process_results` in
priority order: IUPAC first; SMILES only when IUPAC failed; InChI only
when SMILES also failed.  Skipped attempts keep their initialisers
`(False, None)`. -/
def resolveRow (env : ChemEnv) (fuel : Nat) (iupac : String) :
    PyResult ((Bool × Option Mol) × (Bool × Option Mol) × (Bool × Option Mol)) :=
  PyResult.bind (validate_identifier env fuel iupac "iupac") fun ir =>
    if ir.1 then .ret (ir, (false, none), (false, none))
    else
      PyResult.bind (validate_identifier env fuel iupac "smiles") fun sr =>
        if sr.1 then .ret (ir, sr, (false, none))
        else
          PyResult.bind (validate_identifier env fuel iupac "inchi") fun nr =>
            .ret (ir, sr, nr)

/-- The output stream a row is written to. -/
inductive Bucket where
  | valid
  | invalid
  | noInfo
deriving DecidableEq, Repr

/-- The resolution-and-classification tail of the row loop (lines after
the useful-information gate): run the resolution attempts, build the
flag list, and either prepend the canonical SMILES and classify by
carbon content, or write the bare row to the invalid stream. -/
def resolvePhase (env : ChemEnv) (fuel : Nat) (iupac : String) (row : List String) :
    PyResult (Bucket × List String) :=
  PyResult.bind (resolveRow env fuel iupac) fun r =>
    match r with
    | ((iv, im), (sv, sm), (nv, nm)) =>
      let resolutionInfo := [yesNo iv, yesNo sv, yesNo nv]
      if iv || sv || nv then
        let mol := orMol im (orMol sm nm)
        PyResult.bind (MolToSmiles mol) fun canonicalSmiles =>
          if molecule_has_carbon mol then
            .ret (.valid, canonicalSmiles :: row ++ resolutionInfo)
          else
            .ret (.invalid, canonicalSmiles :: row ++ resolutionInfo)
      else .ret (.invalid, row ++ resolutionInfo)

/-- The body of the per-row `try` block of `process_results`: the
null/failed gate, the useful-information gate, then `resolvePhase`. -/
def processRowBody (env : ChemEnv) (fuel : Nat) (row : List String) :
    PyResult (Bucket × List String) :=
  PyResult.bind (pyGet row 0) fun iupac =>
    if iupac = "null" ∨ iupac = "failed" then .ret (.noInfo, row.take 10)
    else
      PyResult.bind (useful_info_loop row 2) fun useful =>
        if useful then resolvePhase env fuel iupac row
        else .ret (.noInfo, row.take 10)

/-- One iteration of the row loop, with its `except` handler: an
exception from the body writes the original row plus three `No` flags
to the invalid stream and moves on. -/
def processRow (env : ChemEnv) (fuel : Nat) (row : List String) :
    PyResult (Bucket × List String) :=
  match processRowBody env fuel row with
  | .exn _ => .ret (.invalid, row ++ ["No", "No", "No"])
  | r => r

/-- The data-row loop of `process_results` over every row after the
header: the three components are the data rows written to the valid,
invalid and no-info streams, in order. -/
def process_rows (env : ChemEnv) (fuel : Nat) :
    List (List String) → PyResult (List (List String) × List (List String) × List (List String))
  | [] => .ret ([], [], [])
  | row :: rest =>
    PyResult.bind (processRow env fuel row) fun br =>
      PyResult.bind (process_rows env fuel rest) fun vin =>
        match br, vin with
        | (.valid, out), (v, i, n) => .ret (out :: v, i, n)
        | (.invalid, out), (v, i, n) => .ret (v, out :: i, n)
        | (.noInfo, out), (v, i, n) => .ret (v, i, out :: n)

/-- The header row `process_results` builds before the loop: the input
header plus the three flag columns, with `canonical_smiles` inserted
at position 0. -/
def enriched_headers (header : List String) : List String :=
  "canonical_smiles" :: (header ++ ["iupac_resolved", "smiles_resolved", "inchi_resolved"])

/-- Embedding of `process_results`: write the enriched header to the
valid and invalid streams and its first 10 columns to the no-info
stream, then stream every data row through the row loop.  Each
component is the full contents of one output file, header first. -/
def process_results (env : ChemEnv) (fuel : Nat) (header : List String)
    (rows : List (List String)) :
    PyResult (List (List String) × List (List String) × List (List String)) :=
  PyResult.bind (process_rows env fuel rows) fun vin =>
    match vin with
    | (v, i, n) =>
      .ret (enriched_headers header :: v, enriched_headers header :: i,
        (enriched_headers header).take 10 :: n)

/-- An environment in which every external service answers but nothing
resolves: both RDKit parsers return `None`, cirpy resolves to `None`,
PubChem returns no property table, and the liveness probe succeeds. -/
def trivEnv : ChemEnv where
  molFromSmiles := fun _ => .ret none
  molFromInchi := fun _ => .ret none
  cirpy := fun _ _ => .ret none
  pubchemGet := fun _ => .ret none
  probe := fun _ => .resp 200

/-- The water molecule: one oxygen atom, canonical SMILES `O`. -/
def waterMol : Mol := ⟨[8], "O"⟩

/-- An aspirin molecule: carbon-containing. -/
def aspirinMol : Mol := ⟨[6, 6, 8], "CC(=O)Oc1ccccc1C(=O)O"⟩

/-- A sodium cation: no carbon, parses both as SMILES and as InChI. -/
def sodiumMol : Mol := ⟨[11], "[Na+]"⟩

/-- An environment in which only the InChI parser resolves, to the
carbon-free water molecule. -/
def waterEnv : ChemEnv where
  molFromSmiles := fun _ => .ret none
  molFromInchi := fun s => if s = "InChI=1S/H2O/h1H2" then .ret (some waterMol) else .ret none
  cirpy := fun _ _ => .ret none
  pubchemGet := fun _ => .ret none
  probe := fun _ => .resp 200

/-- An environment in which cirpy resolves `aspirin` to a SMILES that
RDKit then parses to a carbon-containing molecule. -/
def aspirinEnv : ChemEnv where
  molFromSmiles := fun s =>
    if s = "CC(=O)Oc1ccccc1C(=O)O" then .ret (some aspirinMol) else .ret none
  molFromInchi := fun _ => .ret none
  cirpy := fun s _ => if s = "aspirin" then .ret (some "CC(=O)Oc1ccccc1C(=O)O") else .ret none
  pubchemGet := fun _ => .ret none
  probe := fun _ => .resp 200

/-- An environment in which the identifier `[Na+]` resolves both under
the SMILES parser and under the InChI parser, while the IUPAC chain
fails: the setting of the format-priority claim. -/
def bothEnv : ChemEnv where
  molFromSmiles := fun s => if s = "[Na+]" then .ret (some sodiumMol) else .ret none
  molFromInchi := fun _ => .ret (some sodiumMol)
  cirpy := fun _ _ => .ret none
  pubchemGet := fun _ => .ret none
  probe := fun _ => .resp 200

/-- A probe sequence that fails twice (connection refused) and then
answers 200. -/
def twoFailProbe : Nat → ProbeOutcome :=
  fun n => if n < 2 then .exn "connection refused" else .resp 200

/-- A ten-column input header like the one of the extraction table. -/
def sampleHeader : List String :=
  ["name", "a1", "a2", "a3", "a4", "a5", "a6", "a7", "a8", "paper"]

/-- A ten-field data row whose identifier resolves nowhere. -/
def rowNoResolve : List String :=
  ["foo", "x", "data", "null", "null", "null", "null", "a", "b", "ref"]

/-- A ten-field data row carrying a water InChI as its identifier. -/
def rowWater : List String :=
  ["InChI=1S/H2O/h1H2", "b", "x", "null", "null", "null", "null", "", "", "ref"]

/-- The aspirin example row of the specification. -/
def rowAspirin : List String :=
  ["aspirin", "", "x", "null", "null", "null", "null", "", "", "ref123"]

/-- A row whose auxiliary fields 2..6 are all empty strings. -/
def rowEmptyAux : List String :=
  ["foo", "x", "", "", "", "", "", "a", "b", "ref"]

/-! Helper lemmas. -/

theorem PyResult.bind_ret {α β : Type} (a : α) (f : α → PyResult β) :
    PyResult.bind (.ret a) f = f a := rfl

theorem PyResult.bind_exn {α β : Type} (e : String) (f : α → PyResult β) :
    PyResult.bind (.exn e) f = .exn e := rfl

theorem PyResult.bind_hang {α β : Type} (f : α → PyResult β) :
    PyResult.bind PyResult.hang f = PyResult.hang := rfl

theorem pyCatch_ne_exn {α : Type} (x : PyResult α) (d : α) (msg : String) :
    pyCatch x d ≠ PyResult.exn msg := by
  cases x <;> simp [pyCatch]

theorem pyCatch_ret {α : Type} (a d : α) : pyCatch (.ret a) d = .ret a := rfl

theorem processRow_of_body_ret {env : ChemEnv} {fuel : Nat} {row : List String}
    {x : Bucket × List String} (h : processRowBody env fuel row = .ret x) :
    processRow env fuel row = .ret x := by
  unfold processRow
  rw [h]

theorem processRow_of_body_exn {env : ChemEnv} {fuel : Nat} {row : List String}
    {msg : String} (h : processRowBody env fuel row = .exn msg) :
    processRow env fuel row = .ret (.invalid, row ++ ["No", "No", "No"]) := by
  unfold processRow
  rw [h]

/-- C6: `validate_identifier` never propagates an exception: for every
environment, fuel bound, identifier and format, its outcome is never a
raised exception — the outermost handler converts every exception into
the Unresolved result `(False, None)`. -/
theorem validate_identifier_never_raises (env : ChemEnv) (fuel : Nat)
    (identifier ty msg : String) :
    validate_identifier env fuel identifier ty ≠ PyResult.exn msg := by
  unfold validate_identifier
  split
  · intro h
    cases h
  · exact pyCatch_ne_exn _ _ _

theorem wait_first_success (probe : Nat → ProbeOutcome) :
    ∀ (fuel s k : Nat), wait_for_cactus_service probe fuel s = some k →
      s ≤ k ∧ probeOk (probe k) = true ∧
        ∀ j, s ≤ j → j < k → probeOk (probe j) = false := by
  intro fuel
  induction fuel with
  | zero =>
    intro s k h
    simp [wait_for_cactus_service] at h
  | succ n ih =>
    intro s k h
    unfold wait_for_cactus_service at h
    by_cases hp : probeOk (probe s) = true
    · rw [if_pos hp] at h
      cases h
      exact ⟨Nat.le_refl _, hp, fun j hj1 hj2 => absurd hj1 (by omega)⟩
    · rw [if_neg hp] at h
      obtain ⟨h1, h2, h3⟩ := ih (s + 1) k h
      refine ⟨by omega, h2, fun j hj1 hj2 => ?_⟩
      rcases Nat.eq_or_lt_of_le hj1 with heq | hlt
      · rw [← heq]
        exact Bool.not_eq_true _ |>.mp hp
      · exact h3 j hlt hj2

/-- C7: the availability monitor returns only when a probe succeeds
(never on a failing probe, never by raising), and for a probe sequence
that fails twice and then succeeds it blocks through exactly two sleep
intervals before returning. -/
theorem wait_for_cactus_service_blocks_until_success
    (probe : Nat → ProbeOutcome) (fuel k : Nat) :
    (wait_for_cactus_service probe fuel 0 = some k →
      probeOk (probe k) = true ∧ ∀ j, j < k → probeOk (probe j) = false) ∧
    (3 ≤ fuel → probeOk (probe 0) = false → probeOk (probe 1) = false →
      probeOk (probe 2) = true → wait_for_cactus_service probe fuel 0 = some 2) := by
  constructor
  · intro h
    obtain ⟨_, h2, h3⟩ := wait_first_success probe fuel 0 k h
    exact ⟨h2, fun j hj => h3 j (Nat.zero_le _) hj⟩
  · intro hfuel h0 h1 h2
    obtain ⟨m, rfl⟩ : ∃ m, fuel = m + 3 := ⟨fuel - 3, by omega⟩
    simp [wait_for_cactus_service, h0, h1, h2]

/-- Witness for C7 at the concrete two-failures-then-success probe. -/
theorem wait_for_cactus_service_blocks_witness :
    wait_for_cactus_service twoFailProbe 3 0 = some 2 ∧
      probeOk (twoFailProbe 0) = false ∧ probeOk (twoFailProbe 2) = true := by
  refine ⟨?_, by decide, by decide⟩
  exact (wait_for_cactus_service_blocks_until_success twoFailProbe 3 2).2
    (by decide) (by decide) (by decide) (by decide)

/-- C2: a row whose field 0 is `null` or `failed` is classified NoInfo
for every environment (so no resolution attempt can influence it), and
the emitted row is the original first 10 fields unchanged. -/
theorem null_or_failed_row_noInfo (env : ChemEnv) (fuel : Nat)
    (row : List String) (s : String)
    (h0 : row.get? 0 = some s) (hs : s = "null" ∨ s = "failed") :
    processRow env fuel row = .ret (.noInfo, row.take 10) := by
  apply processRow_of_body_ret
  unfold processRowBody pyGet
  rw [h0]
  rw [PyResult.bind_ret]
  rw [if_pos hs]

/-- Witness for C2 on the spec's all-null example row. -/
theorem null_or_failed_row_noInfo_witness :
    (["null", "null", "null", "null", "null", "null", "null", "", "", "ref456"].get? 0
        = some "null") ∧
      processRow trivEnv 1
          ["null", "null", "null", "null", "null", "null", "null", "", "", "ref456"] =
        .ret (.noInfo,
          ["null", "null", "null", "null", "null", "null", "null", "", "", "ref456"].take 10) :=
  ⟨by decide,
    null_or_failed_row_noInfo trivEnv 1 _ "null" (by decide) (Or.inl rfl)⟩

/-- C3 counter-evidence: on a ten-column input header the no-info
stream's header is `canonical_smiles` followed by the first nine
original columns — not the first ten original columns, which it was
documented to be (`# Original headers only`): `headers` is sliced only
after `canonical_smiles` has been inserted at position 0. -/
theorem no_info_header_not_original_ten :
    (enriched_headers sampleHeader).take 10 =
        "canonical_smiles" :: sampleHeader.take 9 ∧
      (enriched_headers sampleHeader).take 10 ≠ sampleHeader.take 10 ∧
      enriched_headers sampleHeader =
        "canonical_smiles" ::
          (sampleHeader ++ ["iupac_resolved", "smiles_resolved", "inchi_resolved"]) := by
  refine ⟨by decide, by decide, by decide⟩

theorem process_rows_counts_aux (env : ChemEnv) (fuel : Nat) :
    ∀ (rows v i n : List (List String)),
      process_rows env fuel rows = .ret (v, i, n) →
        v.length + i.length + n.length = rows.length := by
  intro rows
  induction rows with
  | nil =>
    intro v i n h
    simp [process_rows] at h
    obtain ⟨h1, h2, h3⟩ := h
    subst h1; subst h2; subst h3
    rfl
  | cons row rest ih =>
    intro v i n h
    unfold process_rows at h
    cases hr : processRow env fuel row with
    | exn e => rw [hr, PyResult.bind_exn] at h; cases h
    | hang => rw [hr, PyResult.bind_hang] at h; cases h
    | ret br =>
      rw [hr, PyResult.bind_ret] at h
      cases hrest : process_rows env fuel rest with
      | exn e => rw [hrest, PyResult.bind_exn] at h; cases h
      | hang => rw [hrest, PyResult.bind_hang] at h; cases h
      | ret vin =>
        rw [hrest, PyResult.bind_ret] at h
        obtain ⟨b, out⟩ := br
        obtain ⟨v', i', n'⟩ := vin
        have hsum := ih v' i' n' hrest
        cases b <;> simp at h <;> obtain ⟨h1, h2, h3⟩ := h <;>
          subst h1 <;> subst h2 <;> subst h3 <;> simp <;> omega

/-- C1: when the row loop completes, every data row has been written to
exactly one of the three output streams: the valid, invalid and
no-info data-row counts sum to the input data-row count, and the three
files `process_results` produces consist of their header followed by
exactly those data rows. -/
theorem process_results_partition (env : ChemEnv) (fuel : Nat)
    (rows v i n : List (List String))
    (h : process_rows env fuel rows = .ret (v, i, n)) :
    v.length + i.length + n.length = rows.length ∧
      ∀ header, process_results env fuel header rows =
        .ret (enriched_headers header :: v, enriched_headers header :: i,
          (enriched_headers header).take 10 :: n) := by
  refine ⟨process_rows_counts_aux env fuel rows v i n h, fun header => ?_⟩
  unfold process_results
  rw [h, PyResult.bind_ret]

/-- Witness for C1 on a concrete two-row batch: one NoInfo row and one
exception-path Invalid row; the counts sum to 2. -/
theorem process_results_partition_witness :
    ([] : List (List String)).length + [["a", "b", "No", "No", "No"]].length +
        [["null", "a"]].length = [["null", "a"], ["a", "b"]].length ∧
      process_results trivEnv 1 sampleHeader [["null", "a"], ["a", "b"]] =
        .ret ([enriched_headers sampleHeader],
          [enriched_headers sampleHeader, ["a", "b", "No", "No", "No"]],
          [(enriched_headers sampleHeader).take 10, ["null", "a"]]) := by
  have h := process_results_partition trivEnv 1 [["null", "a"], ["a", "b"]]
    [] [["a", "b", "No", "No", "No"]] [["null", "a"]] (by decide)
  exact ⟨h.1, h.2 sampleHeader⟩

theorem useful_info_scan_break (row : List String) (rem i : Nat) (v : String)
    (h : row.get? i = some v) (hv : v ≠ "null") :
    useful_info_scan row (rem + 1) i = .ret true := by
  unfold useful_info_scan
  rw [h]
  exact if_pos hv

theorem useful_info_scan_null (row : List String) (rem i : Nat)
    (h : row.get? i = some "null") :
    useful_info_scan row (rem + 1) i = useful_info_scan row rem (i + 1) := by
  conv_lhs => unfold useful_info_scan
  rw [h]
  exact if_neg (by simp)

/-- C9: in the useful-information check only the exact string `null`
counts as a placeholder: a row whose identifier passes the first gate
and whose fields 2..6 all differ from `null` (for example are all
empty strings) sets `useful_info` and proceeds to the resolution
phase instead of being classified NoInfo. -/
theorem empty_aux_fields_reach_resolution (env : ChemEnv) (fuel : Nat)
    (row : List String) (id : String)
    (h0 : row.get? 0 = some id) (hn : id ≠ "null") (hf : id ≠ "failed")
    (haux : ∀ i, 2 ≤ i → i ≤ 6 → ∃ v, row.get? i = some v ∧ v ≠ "null") :
    useful_info_loop row 2 = .ret true ∧
      processRowBody env fuel row = resolvePhase env fuel id row := by
  obtain ⟨v, hv, hvn⟩ := haux 2 (Nat.le_refl 2) (by omega)
  have hl : useful_info_loop row 2 = .ret true := by
    show useful_info_scan row 5 2 = .ret true
    exact useful_info_scan_break row 4 2 v hv hvn
  refine ⟨hl, ?_⟩
  unfold processRowBody pyGet
  rw [h0, PyResult.bind_ret]
  rw [if_neg (by simp [hn, hf])]
  rw [hl, PyResult.bind_ret]
  rfl

/-- Witness for C9 on a row whose auxiliary fields 2..6 are all empty
strings. -/
theorem empty_aux_fields_reach_resolution_witness :
    useful_info_loop rowEmptyAux 2 = .ret true ∧
      processRowBody trivEnv 1 rowEmptyAux = resolvePhase trivEnv 1 "foo" rowEmptyAux :=
  empty_aux_fields_reach_resolution trivEnv 1 rowEmptyAux "foo"
    (by decide) (by decide) (by decide)
    (by
      intro i h2 h6
      interval_cases i <;> exact ⟨"", by decide, by decide⟩)

theorem resolveRow_at_most_one (env : ChemEnv) (fuel : Nat) (id : String)
    (r : (Bool × Option Mol) × (Bool × Option Mol) × (Bool × Option Mol))
    (h : resolveRow env fuel id = .ret r) :
    (r.1.1 = true → r.2.1.1 = false ∧ r.2.2.1 = false) ∧
      (r.2.1.1 = true → r.2.2.1 = false) := by
  unfold resolveRow at h
  cases h1 : validate_identifier env fuel id "iupac" with
  | exn e => rw [h1, PyResult.bind_exn] at h; cases h
  | hang => rw [h1, PyResult.bind_hang] at h; cases h
  | ret ir =>
    rw [h1, PyResult.bind_ret] at h
    by_cases hi : ir.1 = true
    · rw [if_pos hi] at h
      cases h
      simp
    · rw [if_neg hi] at h
      cases h2 : validate_identifier env fuel id "smiles" with
      | exn e => rw [h2, PyResult.bind_exn] at h; cases h
      | hang => rw [h2, PyResult.bind_hang] at h; cases h
      | ret sr =>
        rw [h2, PyResult.bind_ret] at h
        by_cases hs : sr.1 = true
        · rw [if_pos hs] at h
          cases h
          simp [hi]
        · rw [if_neg hs] at h
          cases h3 : validate_identifier env fuel id "inchi" with
          | exn e => rw [h3, PyResult.bind_exn] at h; cases h
          | hang => rw [h3, PyResult.bind_hang] at h; cases h
          | ret nr =>
            rw [h3, PyResult.bind_ret] at h
            cases h
            simp [hi, hs]

theorem count_yes_le_one (a b c : Bool) (h1 : a = true → b = false ∧ c = false)
    (h2 : b = true → c = false) :
    ([yesNo a, yesNo b, yesNo c].count "Yes") ≤ 1 := by
  cases a <;> cases b <;> cases c <;> first | decide | (exfalso; simp_all)

/-- C4: resolution formats are attempted in priority order IUPAC, then
SMILES, then InChI, stopping at the first success: at most one of the
three flags rendered into the output row is `Yes`, and for an
identifier that would independently resolve under SMILES and under
InChI while IUPAC fails, the recorded outcome is No / Yes / No — the
InChI attempt is skipped. -/
theorem resolution_priority_first_match (env : ChemEnv) (fuel : Nat) (id : String) :
    (∀ r, resolveRow env fuel id = .ret r →
      ([yesNo r.1.1, yesNo r.2.1.1, yesNo r.2.2.1].count "Yes") ≤ 1) ∧
    (∀ (m m' : Mol),
      validate_identifier env fuel id "iupac" = .ret (false, none) →
      validate_identifier env fuel id "smiles" = .ret (true, some m) →
      validate_identifier env fuel id "inchi" = .ret (true, some m') →
      resolveRow env fuel id = .ret ((false, none), (true, some m), (false, none))) := by
  constructor
  · intro r hr
    obtain ⟨ha, hb⟩ := resolveRow_at_most_one env fuel id r hr
    obtain ⟨⟨iv, im⟩, ⟨sv, sm⟩, ⟨nv, nm⟩⟩ := r
    exact count_yes_le_one iv sv nv ha hb
  · intro m m' hi hs hn
    unfold resolveRow
    rw [hi, PyResult.bind_ret]
    rw [if_neg (by simp)]
    rw [hs, PyResult.bind_ret]
    rw [if_pos (by simp)]

/-- Witness for C4 in the environment where the sodium cation resolves
both as SMILES and as InChI: only the SMILES flag comes out `Yes`. -/
theorem resolution_priority_first_match_witness :
    resolveRow bothEnv 1 "[Na+]" = .ret ((false, none), (true, some sodiumMol), (false, none)) ∧
      ([yesNo false, yesNo true, yesNo false].count "Yes") ≤ 1 := by
  have h := resolution_priority_first_match bothEnv 1 "[Na+]"
  have h2 := h.2 sodiumMol sodiumMol (by decide) (by decide) (by decide)
  exact ⟨h2, h.1 _ h2⟩

theorem resolvePhase_resolved (env : ChemEnv) (fuel : Nat) (id : String)
    (row : List String) (iv sv nv : Bool) (im sm nm : Option Mol) (m : Mol)
    (hr : resolveRow env fuel id = .ret ((iv, im), (sv, sm), (nv, nm)))
    (hm : orMol im (orMol sm nm) = some m)
    (hflag : (iv || sv || nv) = true) :
    resolvePhase env fuel id row =
      .ret ((if molecule_has_carbon (some m) then Bucket.valid else Bucket.invalid),
        m.canonical :: row ++ [yesNo iv, yesNo sv, yesNo nv]) := by
  unfold resolvePhase
  rw [hr, PyResult.bind_ret]
  simp only [hm, hflag]
  simp [MolToSmiles, PyResult.bind]
  split <;> simp

theorem processRowBody_gates (env : ChemEnv) (fuel : Nat) (row : List String) (id : String)
    (h0 : row.get? 0 = some id) (hn : id ≠ "null") (hf : id ≠ "failed")
    (hu : useful_info_loop row 2 = .ret true) :
    processRowBody env fuel row = resolvePhase env fuel id row := by
  unfold processRowBody pyGet
  rw [h0, PyResult.bind_ret, if_neg (by simp [hn, hf]), hu, PyResult.bind_ret]
  rfl

/-- C5: for a row on which some format resolved, the first resolved
structure's canonical SMILES is prepended as the new first field and
the row goes to the valid stream exactly when the structure contains a
carbon atom and to the invalid stream when it does not; the winning
format's flag is the only one that can be `Yes`. -/
theorem resolved_row_carbon_classification (env : ChemEnv) (fuel : Nat)
    (row : List String) (id : String) (iv sv nv : Bool) (im sm nm : Option Mol) (m : Mol)
    (h0 : row.get? 0 = some id) (hn : id ≠ "null") (hf : id ≠ "failed")
    (hu : useful_info_loop row 2 = .ret true)
    (hr : resolveRow env fuel id = .ret ((iv, im), (sv, sm), (nv, nm)))
    (hm : orMol im (orMol sm nm) = some m)
    (hflag : (iv || sv || nv) = true) :
    processRow env fuel row =
      .ret ((if molecule_has_carbon (some m) then Bucket.valid else Bucket.invalid),
        m.canonical :: row ++ [yesNo iv, yesNo sv, yesNo nv]) ∧
      (iv = true → sv = false ∧ nv = false) ∧ (sv = true → nv = false) := by
  constructor
  · apply processRow_of_body_ret
    rw [processRowBody_gates env fuel row id h0 hn hf hu]
    exact resolvePhase_resolved env fuel id row iv sv nv im sm nm m hr hm hflag
  · exact resolveRow_at_most_one env fuel id _ hr

/-- Witness for C5 on the spec's aspirin example: IUPAC resolves to a
carbon-containing molecule, the row lands in the valid stream with the
canonical SMILES prepended and flags Yes / No / No. -/
theorem resolved_row_carbon_classification_witness :
    processRow aspirinEnv 1 rowAspirin =
      .ret (.valid, "CC(=O)Oc1ccccc1C(=O)O" :: rowAspirin ++ ["Yes", "No", "No"]) := by
  have h := (resolved_row_carbon_classification aspirinEnv 1 rowAspirin "aspirin"
    true false false (some aspirinMol) none none aspirinMol
    (by decide) (by decide) (by decide) (by decide) (by decide) (by decide) (by decide)).1
  have hc : molecule_has_carbon (some aspirinMol) = true := by decide
  simpa [hc, aspirinMol, yesNo] using h

/-- C8: when the body of the row loop raises, the handler writes the
original row with three `No` flags to the invalid stream, and the
batch continues with the remaining rows — the fault is never fatal. -/
theorem row_exception_force_invalid (env : ChemEnv) (fuel : Nat)
    (row : List String) (msg : String)
    (h : processRowBody env fuel row = .exn msg) :
    processRow env fuel row = .ret (.invalid, row ++ ["No", "No", "No"]) ∧
      ∀ rest v i n, process_rows env fuel rest = .ret (v, i, n) →
        process_rows env fuel (row :: rest) =
          .ret (v, (row ++ ["No", "No", "No"]) :: i, n) := by
  have hp := processRow_of_body_exn h
  refine ⟨hp, ?_⟩
  intro rest v i n hrest
  unfold process_rows
  rw [hp, PyResult.bind_ret, hrest, PyResult.bind_ret]

/-- Witness for C8: a two-field row raises `IndexError` in the
useful-information scan, is force-classified Invalid with No/No/No,
and the batch still completes. -/
theorem row_exception_force_invalid_witness :
    processRowBody trivEnv 1 ["a", "b"] = .exn "IndexError" ∧
      processRow trivEnv 1 ["a", "b"] = .ret (.invalid, ["a", "b", "No", "No", "No"]) ∧
      process_rows trivEnv 1 [["a", "b"]] = .ret ([], [["a", "b", "No", "No", "No"]], []) := by
  have h := row_exception_force_invalid trivEnv 1 ["a", "b"] "IndexError" (by decide)
  refine ⟨by decide, ?_, ?_⟩
  · simpa using h.1
  · simpa using h.2 [] [] [] [] (by decide)

/-- C10: rows reaching the invalid stream do not all carry a prepended
canonical-SMILES field.  A row whose processing raised (no gate
conditions assumed: such rows raise precisely inside the gates) and a
row on which no format resolved are written as the original fields
plus the three flags, with no canonical field prepended (for a
full-width row, one field short of the invalid header); only a row
that resolved to a carbon-free structure carries the extra canonical
field and matches the header width. -/
theorem invalid_rows_mixed_width (env : ChemEnv) (fuel : Nat)
    (row : List String) (id : String) (header : List String) :
    (∀ msg, processRowBody env fuel row = .exn msg →
      processRow env fuel row = .ret (.invalid, row ++ ["No", "No", "No"])) ∧
    (row.get? 0 = some id → id ≠ "null" → id ≠ "failed" →
      useful_info_loop row 2 = .ret true →
      row.length = header.length →
      (resolveRow env fuel id = .ret ((false, none), (false, none), (false, none)) →
        processRow env fuel row = .ret (.invalid, row ++ ["No", "No", "No"]) ∧
          (row ++ ["No", "No", "No"]).length + 1 = (enriched_headers header).length) ∧
      (∀ (m : Mol), molecule_has_carbon (some m) = false →
        resolveRow env fuel id = .ret ((false, none), (false, none), (true, some m)) →
        processRow env fuel row = .ret (.invalid, m.canonical :: row ++ ["No", "No", "Yes"]) ∧
          (m.canonical :: (row ++ ["No", "No", "Yes"])).length =
            (enriched_headers header).length)) := by
  constructor
  · intro msg hmsg
    exact processRow_of_body_exn hmsg
  · intro h0 hn hf hu hlen
    have hwidth : (enriched_headers header).length = header.length + 4 := by
      simp [enriched_headers]
    constructor
    · intro hres
      constructor
      · apply processRow_of_body_ret
        rw [processRowBody_gates env fuel row id h0 hn hf hu]
        unfold resolvePhase
        rw [hres, PyResult.bind_ret]
        simp [yesNo]
      · simp [hwidth, hlen]
    · intro m hcarbon hres
      constructor
      · apply processRow_of_body_ret
        rw [processRowBody_gates env fuel row id h0 hn hf hu]
        have h := resolvePhase_resolved env fuel id row false false true none none (some m) m
          hres rfl rfl
        rw [h, hcarbon]
        simp [yesNo]
      · simp [hwidth, hlen]

/-- Witness for C10: the short row raising in the column scan is
written as the original fields plus No/No/No with nothing prepended;
with a ten-column header, the unresolved row is written with 13 fields
while the header has 14; the carbon-free water row is written with 14
fields. -/
theorem invalid_rows_mixed_width_witness :
    processRow trivEnv 1 ["x", "y"] = .ret (.invalid, ["x", "y", "No", "No", "No"]) ∧
    (processRow trivEnv 1 rowNoResolve = .ret (.invalid, rowNoResolve ++ ["No", "No", "No"]) ∧
      (rowNoResolve ++ ["No", "No", "No"]).length + 1 = (enriched_headers sampleHeader).length) ∧
    (processRow waterEnv 1 rowWater = .ret (.invalid, "O" :: rowWater ++ ["No", "No", "Yes"]) ∧
      ("O" :: (rowWater ++ ["No", "No", "Yes"])).length = (enriched_headers sampleHeader).length) := by
  refine ⟨?_, ?_, ?_⟩
  · have h := (invalid_rows_mixed_width trivEnv 1 ["x", "y"] "x" ["x", "y"]).1
      "IndexError" (by decide)
    simpa using h
  · exact ((invalid_rows_mixed_width trivEnv 1 rowNoResolve "foo" sampleHeader).2
      (by decide) (by decide) (by decide) (by decide) (by decide)).1 (by decide)
  · have h := ((invalid_rows_mixed_width waterEnv 1 rowWater "InChI=1S/H2O/h1H2" sampleHeader).2
      (by decide) (by decide) (by decide) (by decide) (by decide)).2 waterMol
      (by decide) (by decide)
    simpa [waterMol] using h
